import Mathlib

/-!
Verification of the MedCompliance compliance-risk scoring engine.

The embedding translates the deterministic core of the repository:
the rule registry and enhanced compliance check of
`src/server/medical-knowledge.ts`, and the multi-factor claim-denial
risk engine of the analytics module (`AdvancedAnalyticsEngine`).
JavaScript numbers are modelled as rationals, machine text as lists of
characters, the wall clock and the fallible storage collaborator as
explicit parameters.
-/

namespace MedCompliance

/-- Text is modelled as a list of characters; JavaScript string methods
(`toLowerCase`, `includes`, `startsWith`) become functions on it. -/
abbrev Str := List Char

/-- JavaScript `toLowerCase` (the source only ever lowercases ASCII text). -/
def lowerStr (s : Str) : Str := s.map Char.toLower

/-- Boolean test that `p` is a leading segment of `s`
(JavaScript `startsWith`). -/
def isPrefixB : Str → Str → Bool
  | [], _ => true
  | _ :: _, [] => false
  | a :: as, b :: bs => a == b && isPrefixB as bs

/-- Boolean substring test, JavaScript `s.includes(p)`. -/
def containsB : Str → Str → Bool
  | [], p => p == []
  | c :: rest, p => isPrefixB p (c :: rest) || containsB rest p

/-- JavaScript `Math.round`: round half toward positive infinity. -/
def jsRound (q : ℚ) : ℤ := ⌊q + 1/2⌋

/-- Word character of the JavaScript regex escape for word boundaries. -/
def isWordChar (c : Char) : Bool := c.isAlphanum || c == '_'

/-- Whitespace as matched by the regex whitespace escape (ASCII part). -/
def isSpaceChar (c : Char) : Bool :=
  c == ' ' || c == '\t' || c == '\n' || c == '\r' || c == '\x0b' || c == '\x0c'

def skipSpaces (s : Str) : Str := s.dropWhile isSpaceChar

/-- Match the separator group of the pain-scale regex: a slash, or the
word "out", one or more spaces, and the word "of". Returns the rest. -/
def matchSep : Str → Option Str
  | '/' :: rs => some rs
  | 'o' :: 'u' :: 't' :: c :: rs =>
      if isSpaceChar c then
        match skipSpaces rs with
        | 'o' :: 'f' :: rest => some rest
        | _ => none
      else none
  | _ => none

/-- Match the regex tail after the leading rating: optional spaces, the
separator, optional spaces, the literal "10", and a word boundary. -/
def matchTail (s : Str) : Bool :=
  match matchSep (skipSpaces s) with
  | none => false
  | some s2 =>
    match skipSpaces s2 with
    | '1' :: '0' :: rest =>
      match rest with
      | [] => true
      | c :: _ => !isWordChar c
    | _ => false

/-- Try to match the whole pain-scale regex at the current position,
given the character just before it (for the word boundary). -/
def matchAt (prev : Option Char) (s : Str) : Bool :=
  let boundaryOK : Bool := match prev with
    | none => true
    | some c => !isWordChar c
  boundaryOK &&
    (match s with
     | '1' :: '0' :: rs => matchTail ('0' :: rs) || matchTail rs
     | c :: rs => c.isDigit && matchTail rs
     | [] => false)

/-- Scan every position of the text for a match of the regex. -/
def regexScan : Option Char → Str → Bool
  | prev, [] => matchAt prev []
  | prev, c :: rest => matchAt prev (c :: rest) || regexScan (some c) rest

/-- The numeric rating regex of the missing-pain-scale rule, searching a
word-bounded 0 to 10 rating written over 10 anywhere in the text. -/
def painScaleRegexTest (s : Str) : Bool := regexScan none s

/-! ## Data model -/

/-- Dynamic value stored in the soapNotes field: either plain note text
or a structured note object with the four SOAP sections. The source
probes it dynamically, so both shapes occur. -/
inductive SoapVal
  | str (s : Str)
  | obj (objective assessment plan : Option Str)
deriving DecidableEq

/-- Encounter record as consumed by the core (subset of the schema the
scoring code reads). The appointment time is epoch milliseconds. -/
structure Encounter where
  id : String := ""
  patientId : String := ""
  status : String := ""
  appointmentTime : ℤ := 0
  chiefComplaint : String := ""
  soapNotes : Option SoapVal := none
  icdCodes : Option (List Str) := none
  cptCodes : Option (List Str) := none
  claimRiskScore : Option ℤ := none
  encounterType : String := ""
deriving DecidableEq

/-- Stored compliance flag fields read by the risk assessors. -/
structure ComplianceFlagRec where
  flagType : String := ""
  severity : String := ""
  isResolved : Bool := false
deriving DecidableEq

structure Patient where
  id : String := ""
deriving DecidableEq

/-- Flag emitted by rule evaluation in the enhanced compliance check. -/
structure RaisedFlag where
  type : String
  severity : String
  message : String
  explanation : String
  remediation : List String
deriving DecidableEq

/-- Compliance rule of the knowledge base. -/
structure ComplianceRule where
  id : String
  name : String
  category : String
  severity : String
  check : Encounter → Str → Bool
  message : String
  explanation : String
  remediation : List String

/-- Code suggestion returned by the suggestion engine. -/
structure Suggestion where
  code : String
  description : String
  type : String
  confidence : ℕ
  docRequirements : List String

/-- Computed risk factor (transient output of one assessor). -/
structure RiskFactor where
  score : ℚ
  severity : String
  issues : List String
  category : String
deriving DecidableEq

structure Recommendation where
  category : String
  priority : String
  title : String
  description : String
  actions : List String
  estimatedImpact : String
deriving DecidableEq

/-! ## Medical knowledge service: compliance rules -/

/-- Optional-chained probe `soapNotes?.objective?.toLowerCase().includes("exam")`
of the missing-physical-exam rule; undefined links are falsy. -/
def soapObjectiveHasExam (e : Encounter) : Bool :=
  match e.soapNotes with
  | some (.obj (some o) _ _) => containsB (lowerStr o) "exam".toList
  | _ => false

def missingPhysicalExamCheck (e : Encounter) (t : Str) : Bool :=
  let lower := lowerStr t
  let hasPhysicalExam :=
    containsB lower "examination".toList ||
    containsB lower "physical exam".toList ||
    containsB lower "vital signs".toList ||
    soapObjectiveHasExam e
  !hasPhysicalExam

/-- The transcript, lowercased, mentions pain or hurt. -/
def hasPainComplaint (t : Str) : Bool :=
  let painKeywords := lowerStr t
  containsB painKeywords "pain".toList || containsB painKeywords "hurt".toList

/-- The transcript, lowercased, carries a pain-scale reference: the word
scale, a slash-10, the phrase out of 10, or the numeric rating regex. -/
def hasPainScaleRef (t : Str) : Bool :=
  let painKeywords := lowerStr t
  containsB painKeywords "scale".toList ||
  containsB painKeywords "/10".toList ||
  containsB painKeywords "out of 10".toList ||
  painScaleRegexTest painKeywords

def missingPainScaleCheck (_e : Encounter) (t : Str) : Bool :=
  hasPainComplaint t && !hasPainScaleRef t

/-- The eight history-of-present-illness element patterns, each an
alternation of literal fragments matched case-insensitively. -/
def hpiElements : List (List Str) :=
  [ ["duration".toList, "how long".toList, "started".toList, "began".toList],
    ["location".toList, "where".toList, "area".toList],
    ["quality".toList, "type".toList, "kind".toList, "character".toList],
    ["severity".toList, "scale".toList, "intensity".toList],
    ["timing".toList, "when".toList, "frequency".toList],
    ["context".toList, "caused".toList, "triggered".toList],
    ["modifying".toList, "better".toList, "worse".toList, "aggravat".toList],
    ["associated".toList, "symptoms".toList, "accompan".toList] ]

def insufficientHistoryCheck (_e : Encounter) (t : Str) : Bool :=
  let lower := lowerStr t
  let foundElements := hpiElements.filter (fun alts => alts.any (fun p => containsB lower p))
  foundElements.length < 4

def missingPhysicalExamRule : ComplianceRule :=
  { id := "missing-physical-exam"
    name := "Missing Physical Examination"
    category := "Documentation"
    severity := "critical"
    check := missingPhysicalExamCheck
    message := "Missing physical examination findings"
    explanation := "Physical examination documentation is required for proper billing and medical necessity"
    remediation :=
      [ "Document relevant physical examination findings",
        "Include vital signs if appropriate",
        "Note normal and abnormal findings" ] }

def missingPainScaleRule : ComplianceRule :=
  { id := "missing-pain-scale"
    name := "Missing Pain Scale Assessment"
    category := "Clinical"
    severity := "high"
    check := missingPainScaleCheck
    message := "Pain scale assessment not documented"
    explanation := "Standardized pain scale (0-10) required for pain management and billing compliance"
    remediation :=
      [ "Document pain scale rating (0-10)",
        "Note pain characteristics and location",
        "Assess functional impact of pain" ] }

def insufficientHistoryRule : ComplianceRule :=
  { id := "insufficient-history"
    name := "Insufficient History of Present Illness"
    category := "Documentation"
    severity := "medium"
    check := insufficientHistoryCheck
    message := "History of present illness needs more detail"
    explanation := "Detailed history requires 4+ elements: location, quality, severity, duration, timing, context, modifying factors, associated symptoms"
    remediation :=
      [ "Document pain/symptom location and character",
        "Note onset, duration, and timing",
        "Assess aggravating and alleviating factors",
        "Document associated symptoms" ] }

/-- The rule registry, in insertion order. -/
def complianceRules : List ComplianceRule :=
  [missingPhysicalExamRule, missingPainScaleRule, insufficientHistoryRule]

/-- Run every registered rule and emit a flag for each violation. -/
def evaluateRules (e : Encounter) (t : Str) : List RaisedFlag :=
  complianceRules.filterMap (fun r =>
    if r.check e t then
      some { type := r.id, severity := r.severity, message := r.message,
             explanation := r.explanation, remediation := r.remediation }
    else none)

/-! ## Medical knowledge service: code suggestions -/

def m54_5_docs : List String :=
  [ "Pain location (specific region of back)",
    "Pain duration (acute vs chronic)",
    "Pain characteristics (sharp, dull, radiating)",
    "Aggravating and alleviating factors",
    "Pain scale rating (0-10)",
    "Impact on daily activities" ]

def z00_00_docs : List String :=
  [ "Comprehensive history",
    "Complete physical examination",
    "Review of systems",
    "Assessment of health status",
    "Preventive counseling",
    "Age-appropriate screening recommendations" ]

def cpt99213_docs : List String :=
  [ "Chief complaint",
    "History of present illness (4+ elements)",
    "Review of systems (2-9 systems)",
    "Examination of affected body area and other symptomatic systems",
    "Assessment and plan with multiple treatment options" ]

def cpt99395_docs : List String :=
  [ "Complete medical history",
    "Family and social history",
    "Complete physical examination",
    "Age and gender appropriate screening",
    "Health counseling and education" ]

def suggestICD10Codes (t : Str) : List Suggestion :=
  let lowerTranscript := lowerStr t
  (if containsB lowerTranscript "back pain".toList || containsB lowerTranscript "lower back".toList then
    [{ code := "M54.5", description := "Low back pain", type := "icd10",
       confidence := 85, docRequirements := m54_5_docs }]
  else []) ++
  (if containsB lowerTranscript "annual".toList || containsB lowerTranscript "physical".toList ||
      containsB lowerTranscript "checkup".toList || containsB lowerTranscript "preventive".toList then
    [{ code := "Z00.00",
       description := "Encounter for general adult medical examination without abnormal findings",
       type := "icd10", confidence := 90, docRequirements := z00_00_docs }]
  else [])

def suggestCPTCodes (e : Encounter) (_t : Str) : List Suggestion :=
  (if e.encounterType = "Follow-up" || e.encounterType = "Office Visit" then
    [{ code := "99213",
       description := "Office/outpatient visit, established patient, level 3",
       type := "cpt", confidence := 80, docRequirements := cpt99213_docs }]
  else []) ++
  (if e.encounterType = "Annual Physical" || e.encounterType = "Preventive" then
    [{ code := "99395",
       description := "Periodic comprehensive preventive medicine, established patient, 18-39 years",
       type := "cpt", confidence := 95, docRequirements := cpt99395_docs }]
  else [])

/-! ## Medical knowledge service: risk score of the enhanced check -/

/-- Points subtracted per flag by severity in the enhanced-check risk
score (unknown severities fall through the switch and subtract nothing). -/
def severityDeduction (sev : String) : ℤ :=
  if sev = "critical" then 25
  else if sev = "high" then 15
  else if sev = "medium" then 10
  else if sev = "low" then 5
  else 0

/-- Truthiness of `soapNotes && soapNotes.assessment`: only a structured
note with a nonempty assessment text passes. -/
def soapAssessmentTruthy (e : Encounter) : Bool :=
  match e.soapNotes with
  | some (.obj _ (some a) _) => !(a == [])
  | _ => false

/-- Truthiness of `soapNotes && soapNotes.plan`. -/
def soapPlanTruthy (e : Encounter) : Bool :=
  match e.soapNotes with
  | some (.obj _ _ (some p)) => !(p == [])
  | _ => false

/-- Risk score of the enhanced compliance check: start at 90 (low risk),
subtract per flag by severity, for a missing assessment, a missing plan
and a short transcript, then clamp to [0,100]. Higher is better here. -/
def calculateRiskScore (flags : List RaisedFlag) (e : Encounter) (t : Str) : ℤ :=
  let afterFlags := 90 - (flags.map (fun f => severityDeduction f.severity)).sum
  let afterAssessment := afterFlags - (if !soapAssessmentTruthy e then 20 else 0)
  let afterPlan := afterAssessment - (if !soapPlanTruthy e then 15 else 0)
  let afterLength := afterPlan - (if t.length < 100 then 20 else 0)
  max 0 (min 100 afterLength)

structure CheckResult where
  flags : List RaisedFlag
  suggestions : List Suggestion
  riskScore : ℤ

/-- The enhanced compliance check entry point: evaluate all rules,
collect ICD-10 and CPT suggestions, and compute the risk score. -/
def enhancedComplianceCheck (e : Encounter) (t : Str) : CheckResult :=
  let flags := evaluateRules e t
  { flags := flags
    suggestions := suggestICD10Codes t ++ suggestCPTCodes e t
    riskScore := calculateRiskScore flags e t }

/-! ## Analytics engine: the four risk factor assessors

    The wall clock enters as `now` (epoch milliseconds); the engine reads
    it once per assessment. The storage collaborator of the historical
    assessor enters as an explicit, possibly failing, list of encounters. -/

/-- Condition `!soapNotes || soapNotes.length < bound` used by the
documentation assessor (bound 100) and the coding assessor (bound 200).
A structured note object has no length, so its comparison is falsy; an
absent note, or plain-text one shorter than the bound (the empty text is
already falsy by itself), triggers the branch. -/
def soapShort (bound : ℕ) (e : Encounter) : Bool :=
  match e.soapNotes with
  | none => true
  | some (.str s) => decide (s.length < bound)
  | some (.obj _ _ _) => false

/-- Unresolved flags counted as critical by the documentation assessor:
exactly those with severity high. -/
def criticalFlagsOf (flags : List ComplianceFlagRec) : List ComplianceFlagRec :=
  flags.filter (fun f => f.severity == "high" && !f.isResolved)

/-- Documentation aging test: more than 30 days since the appointment and
the encounter is not completed. -/
def docDelayed (now : ℤ) (e : Encounter) : Bool :=
  decide ((((now - e.appointmentTime : ℤ) : ℚ) / (1000 * 60 * 60 * 24)) > 30)
    && !(e.status == "completed")

/-- Raw (unclamped) documentation-quality score. -/
def docQualityRawScore (now : ℤ) (e : Encounter) (flags : List ComplianceFlagRec) : ℤ :=
  (if soapShort 100 e then 25 else 0) +
  (criticalFlagsOf flags).length * 15 +
  (if e.chiefComplaint = "" then 20 else 0) +
  (if docDelayed now e then 30 else 0)

/-- Severity bucket shared by all four assessors, computed from the raw
score before clamping. -/
def severityBucket (score : ℚ) : String :=
  if score > 70 then "high" else if score > 40 then "medium" else "low"

/-- Documentation-quality assessor. -/
def assessDocumentationQuality (now : ℤ) (e : Encounter)
    (flags : List ComplianceFlagRec) : RiskFactor :=
  let score : ℚ := (docQualityRawScore now e flags : ℤ)
  { score := min score 100
    severity := severityBucket score
    issues :=
      (if soapShort 100 e then ["Insufficient SOAP notes documentation"] else []) ++
      (if (criticalFlagsOf flags).length > 0 then
        [toString (criticalFlagsOf flags).length ++ " unresolved critical compliance issues"]
      else []) ++
      (if e.chiefComplaint = "" then ["Missing chief complaint"] else []) ++
      (if docDelayed now e then ["Documentation delayed beyond 30 days"] else [])
    category := "Documentation Quality" }

def highLevelEMCodes : List Str :=
  ["99214".toList, "99215".toList, "99204".toList, "99205".toList]

def preventiveCPTCodes : List Str :=
  ["99381".toList, "99382".toList, "99383".toList, "99384".toList,
   "99385".toList, "99386".toList, "99387".toList]

/-- Raw (unclamped) coding-accuracy score. -/
def codingRawScore (e : Encounter) : ℤ :=
  let icdCodes := e.icdCodes.getD []
  let cptCodes := e.cptCodes.getD []
  let icdPart : ℤ :=
    if icdCodes.length = 0 then 40
    else if icdCodes.any (fun c => containsB c ".9".toList || containsB c "unspecified".toList)
      then 20 else 0
  let cptPart : ℤ :=
    if cptCodes.length = 0 then 35
    else if cptCodes.any (fun c => highLevelEMCodes.contains c) && soapShort 200 e
      then 30 else 0
  let necessityPart : ℤ :=
    if icdCodes.length > 0 && cptCodes.length > 0 &&
       cptCodes.any (fun c => preventiveCPTCodes.contains c) &&
       icdCodes.any (fun c => !isPrefixB "Z".toList c)
    then 25 else 0
  icdPart + cptPart + necessityPart

/-- Coding-accuracy assessor. -/
def assessCodingAccuracy (e : Encounter) : RiskFactor :=
  let icdCodes := e.icdCodes.getD []
  let cptCodes := e.cptCodes.getD []
  let score : ℚ := (codingRawScore e : ℤ)
  { score := min score 100
    severity := severityBucket score
    issues :=
      (if icdCodes.length = 0 then ["No ICD-10 codes assigned"]
       else if icdCodes.any (fun c => containsB c ".9".toList || containsB c "unspecified".toList)
         then ["Contains unspecified diagnosis codes"] else []) ++
      (if cptCodes.length = 0 then ["No CPT codes assigned"]
       else if cptCodes.any (fun c => highLevelEMCodes.contains c) && soapShort 200 e
         then ["High-level E/M code may lack supporting documentation"] else []) ++
      (if icdCodes.length > 0 && cptCodes.length > 0 &&
          cptCodes.any (fun c => preventiveCPTCodes.contains c) &&
          icdCodes.any (fun c => !isPrefixB "Z".toList c)
       then ["Preventive visit with problem diagnosis may require modifier"] else [])
    category := "Coding Accuracy" }

/-- Raw compliance score for a nonempty flag list. -/
def complianceRawScore (flags : List ComplianceFlagRec) : ℚ :=
  let totalFlags := flags.length
  let unresolvedFlags := (flags.filter (fun f => !f.isResolved)).length
  let highSeverityFlags := (flags.filter (fun f => f.severity == "high")).length
  ((unresolvedFlags : ℚ) / (totalFlags : ℚ)) * 50 +
  (highSeverityFlags : ℚ) * 10 +
  (if ((((flags.map (fun f => f.flagType)).dedup).length : ℚ) < (totalFlags : ℚ) / 2)
   then 15 else 0)

/-- Compliance assessor. -/
def assessComplianceScore (flags : List ComplianceFlagRec) : RiskFactor :=
  if flags.length = 0 then
    { score := 0, severity := "low", issues := [], category := "Compliance" }
  else
    let unresolvedFlags := (flags.filter (fun f => !f.isResolved)).length
    let highSeverityFlags := (flags.filter (fun f => f.severity == "high")).length
    let score := complianceRawScore flags
    { score := min score 100
      severity := severityBucket score
      issues :=
        (if unresolvedFlags > 0 then
          [toString unresolvedFlags ++ " unresolved compliance flags"] else []) ++
        (if highSeverityFlags > 0 then
          [toString highSeverityFlags ++ " high-severity compliance issues"] else []) ++
        (if ((((flags.map (fun f => f.flagType)).dedup).length : ℚ) < (flags.length : ℚ) / 2)
         then ["Recurring compliance issues detected"] else [])
      category := "Compliance" }

/-- Prior encounters of the patient, excluding the one under assessment. -/
def patientEncountersOf (p : Patient) (e : Encounter) (all : List Encounter) : List Encounter :=
  all.filter (fun en => en.patientId == p.id && !(en.id == e.id))

/-- Prior encounters whose stored claim risk score exceeds 70. -/
def highRiskEncountersOf (p : Patient) (e : Encounter) (all : List Encounter) : List Encounter :=
  (patientEncountersOf p e all).filter (fun en => en.claimRiskScore.getD 0 > 70)

def chronicConditionPrefixes : List Str :=
  ["E11".toList, "I10".toList, "M79".toList, "F32".toList, "G93".toList]

/-- Historical-patterns assessor. An unknown patient yields a fixed
low-risk factor; a storage failure yields a fixed medium-risk factor;
otherwise the score is computed from the history. The six-months-ago
cutoff is computed by the caller from the current date. -/
def assessHistoricalPatterns (sixMonthsAgo : ℤ) (patient : Option Patient)
    (e : Encounter) (history : Except Unit (List Encounter)) : RiskFactor :=
  match patient with
  | none =>
    { score := 10, severity := "low",
      issues := ["Patient data unavailable for historical analysis"],
      category := "Historical Patterns" }
  | some p =>
    match history with
    | .error _ =>
      { score := 20, severity := "medium",
        issues := ["Unable to complete historical analysis"],
        category := "Historical Patterns" }
    | .ok allEncounters =>
      let patientEncounters := patientEncountersOf p e allEncounters
      let highRiskEncounters := highRiskEncountersOf p e allEncounters
      let riskRate : ℚ := (highRiskEncounters.length : ℚ) / (patientEncounters.length : ℚ)
      let recentEncounters := patientEncounters.filter (fun en => en.appointmentTime > sixMonthsAgo)
      let uniqueDiagnoses :=
        ((patientEncounters.flatMap (fun en => en.icdCodes.getD [])).filter
          (fun c => !(c == []))).dedup
      let hasChronicConditions :=
        uniqueDiagnoses.any (fun code => chronicConditionPrefixes.any (fun p => isPrefixB p code))
      let score : ℚ :=
        (if highRiskEncounters.length > 0 then riskRate * 40 else 0) +
        (if recentEncounters.length > 10 then 20 else 0) +
        (if uniqueDiagnoses.length > 15 then 15 else 0) +
        (if hasChronicConditions then 5 else 0)
      { score := min score 100
        severity := severityBucket score
        issues :=
          (if highRiskEncounters.length > 0 then
            [toString (jsRound (riskRate * 100)) ++ "% of historical encounters had high claim risk"]
          else []) ++
          (if recentEncounters.length > 10 then
            ["High frequency of recent encounters may indicate over-utilization"] else []) ++
          (if uniqueDiagnoses.length > 15 then
            ["Complex medical history with multiple diagnoses"] else []) ++
          (if hasChronicConditions then
            ["Patient has chronic conditions requiring enhanced documentation"] else [])
        category := "Historical Patterns" }

/-! ## Analytics engine: aggregation -/

structure RiskFactors4 where
  documentation : RiskFactor
  coding : RiskFactor
  compliance : RiskFactor
  historical : RiskFactor

/-- Weighted overall risk: documentation 0.35, coding 0.30,
compliance 0.25, historical 0.10, rounded to an integer. -/
def calculateWeightedRisk (factors : RiskFactors4) : ℤ :=
  jsRound (factors.documentation.score * (0.35 : ℚ) +
           factors.coding.score * (0.30 : ℚ) +
           factors.compliance.score * (0.25 : ℚ) +
           factors.historical.score * (0.10 : ℚ))

/-- Qualitative risk level from the overall score. -/
def categorizeRisk (score : ℤ) : String :=
  if score ≥ 80 then "critical"
  else if score ≥ 60 then "high"
  else if score ≥ 30 then "medium"
  else "low"

/-- Per-encounter recommendations from the factor scores and overall risk. -/
def generateRecommendations (overallRisk : ℤ) (factors : RiskFactors4) : List Recommendation :=
  (if factors.documentation.score > 40 then
    [{ category := "Documentation", priority := factors.documentation.severity,
       title := "Enhance Clinical Documentation",
       description := "Improve SOAP notes completeness and resolve compliance flags",
       actions :=
         [ "Complete detailed SOAP notes with all required elements",
           "Address all unresolved compliance flags",
           "Ensure chief complaint is properly documented",
           "Complete documentation within 24 hours of encounter" ],
       estimatedImpact := "Reduces claim denial risk by 20-35%" }]
  else []) ++
  (if factors.coding.score > 40 then
    [{ category := "Medical Coding", priority := factors.coding.severity,
       title := "Improve Coding Accuracy",
       description := "Ensure proper ICD-10 and CPT code assignment with medical necessity",
       actions :=
         [ "Assign specific ICD-10 codes instead of unspecified codes",
           "Ensure CPT codes match the level of service documented",
           "Verify medical necessity between diagnoses and procedures",
           "Add appropriate modifiers for preventive visits with problems" ],
       estimatedImpact := "Reduces claim denial risk by 15-30%" }]
  else []) ++
  (if factors.compliance.score > 30 then
    [{ category := "Compliance", priority := factors.compliance.severity,
       title := "Address Compliance Issues",
       description := "Resolve outstanding compliance flags to meet regulatory requirements",
       actions :=
         [ "Review and address all high-severity compliance flags",
           "Implement systematic compliance checking processes",
           "Provide additional training on recurring compliance issues",
           "Establish regular compliance audits" ],
       estimatedImpact := "Reduces claim denial risk by 10-25%" }]
  else []) ++
  (if overallRisk > 70 then
    [{ category := "Risk Mitigation", priority := "high",
       title := "Immediate Risk Reduction Required",
       description := "This encounter has critical claim denial risk requiring immediate attention",
       actions :=
         [ "Conduct thorough review before claim submission",
           "Consider peer review or supervisor consultation",
           "Implement all high-priority recommendations immediately",
           "Monitor encounter closely through claims process" ],
       estimatedImpact := "Comprehensive risk reduction approach" }]
  else [])

structure RiskAssessment where
  encounterId : String
  overallRiskScore : ℤ
  riskLevel : String
  riskFactors : RiskFactors4
  recommendations : List Recommendation

/-- Full multi-factor claim denial risk assessment. Storage lookups of
the source method become parameters: the stored flags of the encounter,
the patient (possibly unresolved) and the possibly failing encounter
history used by the historical assessor. -/
def calculateClaimDenialRisk (now sixMonthsAgo : ℤ) (e : Encounter)
    (patient : Option Patient) (complianceFlags : List ComplianceFlagRec)
    (history : Except Unit (List Encounter)) : RiskAssessment :=
  let documentationRisk := assessDocumentationQuality now e complianceFlags
  let codingRisk := assessCodingAccuracy e
  let complianceRisk := assessComplianceScore complianceFlags
  let historicalRisk := assessHistoricalPatterns sixMonthsAgo patient e history
  let factors : RiskFactors4 :=
    { documentation := documentationRisk, coding := codingRisk,
      compliance := complianceRisk, historical := historicalRisk }
  let overallRisk := calculateWeightedRisk factors
  { encounterId := e.id
    overallRiskScore := overallRisk
    riskLevel := categorizeRisk overallRisk
    riskFactors := factors
    recommendations := generateRecommendations overallRisk factors }

/-! ## Analytics engine: portfolio dashboard -/

structure TopFactor where
  type : String
  count : ℕ
deriving DecidableEq

structure SystemMetrics where
  avgRiskScore : ℚ
  highRiskRate : ℚ
  topRiskFactors : List TopFactor

/-- Average stored risk score over the whole portfolio. -/
def dashboardAvgRiskScore (encounters : List Encounter) : ℚ :=
  ((encounters.map (fun e => ((e.claimRiskScore.getD 0 : ℤ) : ℚ))).sum) / (encounters.length : ℚ)

/-- High-risk rate of the dashboard: percentage of all encounters whose
stored claim risk score exceeds 70. -/
def dashboardHighRiskRate (encounters : List Encounter) : ℚ :=
  (((encounters.filter (fun e => e.claimRiskScore.getD 0 > 70)).length : ℚ) /
    (encounters.length : ℚ)) * 100

/-- Flag types in first-occurrence order (object key insertion order). -/
def firstOccs (types : List String) : List String :=
  types.foldl (fun acc t => if acc.contains t then acc else acc ++ [t]) []

def countOcc (types : List String) (x : String) : ℕ :=
  (types.filter (fun t => t == x)).length

/-- Stable insertion of a factor into a count-descending list. -/
def insertTF (x : TopFactor) : List TopFactor → List TopFactor
  | [] => [x]
  | y :: ys => if y.count < x.count then x :: y :: ys else y :: insertTF x ys

/-- Stable sort by count, descending. -/
def sortTF (l : List TopFactor) : List TopFactor :=
  l.foldl (fun acc x => insertTF x acc) []

/-- Five most frequent flag types over the portfolio. -/
def topRiskFactorsOf (types : List String) : List TopFactor :=
  (sortTF ((firstOccs types).map (fun t => { type := t, count := countOcc types t }))).take 5

/-- System-wide recommendations from the aggregate metrics. -/
def generateSystemWideRecommendations (metrics : SystemMetrics) : List Recommendation :=
  (if metrics.avgRiskScore > 50 then
    [{ category := "System Performance", priority := "high",
       title := "Improve Overall Documentation Quality",
       description := "Average risk score of " ++ toString (jsRound metrics.avgRiskScore) ++
         " indicates system-wide documentation improvements needed",
       actions :=
         [ "Implement mandatory documentation training",
           "Establish documentation quality metrics",
           "Increase use of AI-powered compliance checking",
           "Regular peer review of high-risk encounters" ],
       estimatedImpact := "Could reduce average risk score by 15-25%" }]
  else []) ++
  (if metrics.highRiskRate > 25 then
    [{ category := "Risk Management", priority := "high",
       title := "Address High-Risk Encounter Rate",
       description := toString (jsRound metrics.highRiskRate) ++
         "% of encounters are high-risk, above acceptable threshold",
       actions :=
         [ "Implement pre-submission review for high-risk encounters",
           "Enhance real-time compliance monitoring",
           "Provide targeted training on common risk factors",
           "Consider automated risk scoring alerts" ],
       estimatedImpact := "Target to reduce high-risk rate below 15%" }]
  else []) ++
  (match metrics.topRiskFactors with
   | [] => []
   | topFactor :: _ =>
     [{ category := "Compliance Focus", priority := "medium",
        title := "Address Common Risk Factor: " ++ topFactor.type,
        description := topFactor.type ++ " appears in " ++ toString topFactor.count ++
          " encounters, indicating systematic issue",
        actions :=
          [ "Develop specific training module for " ++ topFactor.type,
            "Create automated checks for this common issue",
            "Review and update documentation templates",
            "Implement targeted quality assurance measures" ],
        estimatedImpact := "Could prevent " ++ toString topFactor.count ++
          " future compliance issues" }] )

/-- Dashboard recommendation pipeline: aggregate the portfolio metrics
the way `generateAnalyticsDashboard` does (flag types are gathered from
storage by the caller) and produce the system-wide recommendations. -/
def generateDashboardRecommendations (encounters : List Encounter)
    (flagTypes : List String) : List Recommendation :=
  generateSystemWideRecommendations
    { avgRiskScore := dashboardAvgRiskScore encounters
      highRiskRate := dashboardHighRiskRate encounters
      topRiskFactors := topRiskFactorsOf flagTypes }

/-- Modelled from the spec: the high-risk rate as the specification
states it, the percentage of encounters with stored risk score at least
60 among the entries of the last `nDays` days. The code computes a
different quantity; this definition exists to compare the two. -/
def specHighRiskRate (now : ℤ) (nDays : ℕ) (encounters : List Encounter) : ℚ :=
  let recent := encounters.filter
    (fun e => e.appointmentTime > now - (nDays : ℤ) * (1000 * 60 * 60 * 24))
  (((recent.filter (fun e => e.claimRiskScore.getD 0 ≥ 60)).length : ℚ) /
    (recent.length : ℚ)) * 100

/-! ## Concrete fixtures used by counterexamples and witnesses -/

/-- Transcript violating none of the three compliance rules. -/
def tA : Str := "examination done. pain 3/10. duration two weeks, location back, quality dull, severity mild".toList

/-- Transcript identical to `tA` except that the pain rating is gone, so
it violates exactly the missing-pain-scale rule. -/
def tB : Str := "examination done. pain noted. duration two weeks, location back, quality dull, severity mild".toList

/-- Encounter whose stored claim risk score is 65: at least 60 (the
high-risk bound the spec states) but not above 70 (the bound the
dashboard code uses). -/
def encRisk65 : Encounter := { claimRiskScore := some 65 }

/-- Encounter whose stored claim risk score is 80, high-risk under both
readings. -/
def encRisk80 : Encounter := { claimRiskScore := some 80 }

/-- Scenario encounter of the end-to-end claim: no SOAP notes, empty
chief complaint, no codes, already completed (so not aged). -/
def encScenario : Encounter := { status := "completed" }

/-! ## General lemmas about the text primitives and rounding -/

theorem isPrefixB_eq_true_iff : ∀ p s : Str, isPrefixB p s = true ↔ p <+: s := by
  intro p
  induction p with
  | nil => intro s; simp [isPrefixB]
  | cons a as ih =>
    intro s
    cases s with
    | nil => simp [isPrefixB]
    | cons b bs =>
      rw [List.cons_prefix_cons]
      simp [isPrefixB, ih bs, Bool.and_eq_true, beq_iff_eq]

theorem containsB_eq_true_iff : ∀ s p : Str, containsB s p = true ↔ p <:+: s := by
  intro s
  induction s with
  | nil => intro p; simp [containsB, List.infix_nil]
  | cons c rest ih =>
    intro p
    simp [containsB, isPrefixB_eq_true_iff, ih, List.infix_cons_iff]

/-- Substring containment is transitive through an intermediate text. -/
theorem containsB_of_containsB_of_containsB {s big sub : Str}
    (h1 : containsB s big = true) (h2 : containsB big sub = true) :
    containsB s sub = true := by
  rw [containsB_eq_true_iff] at h1 h2 ⊢
  exact h2.trans h1

theorem le_jsRound {n : ℤ} {q : ℚ} (h : (n : ℚ) ≤ q) : n ≤ jsRound q := by
  unfold jsRound
  rw [Int.le_floor]
  linarith

theorem jsRound_le {n : ℤ} {q : ℚ} (h : q ≤ (n : ℚ)) : jsRound q ≤ n := by
  have h2 : ⌊q + 1/2⌋ < n + 1 := by
    rw [Int.floor_lt]
    push_cast
    linarith
  unfold jsRound
  omega

/-! ## Score range lemmas for the four assessors -/

theorem docRaw_nonneg (now : ℤ) (e : Encounter) (flags : List ComplianceFlagRec) :
    0 ≤ docQualityRawScore now e flags := by
  unfold docQualityRawScore
  split_ifs <;> omega

theorem docScore_mem (now : ℤ) (e : Encounter) (flags : List ComplianceFlagRec) :
    0 ≤ (assessDocumentationQuality now e flags).score ∧
      (assessDocumentationQuality now e flags).score ≤ 100 := by
  unfold assessDocumentationQuality
  refine ⟨le_min ?_ (by norm_num), min_le_right _ _⟩
  exact_mod_cast docRaw_nonneg now e flags

theorem codingRaw_nonneg (e : Encounter) : 0 ≤ codingRawScore e := by
  unfold codingRawScore
  dsimp only
  split_ifs <;> omega

theorem codingScore_mem (e : Encounter) :
    0 ≤ (assessCodingAccuracy e).score ∧ (assessCodingAccuracy e).score ≤ 100 := by
  unfold assessCodingAccuracy
  refine ⟨le_min ?_ (by norm_num), min_le_right _ _⟩
  exact_mod_cast codingRaw_nonneg e

theorem complianceRaw_nonneg (flags : List ComplianceFlagRec) :
    0 ≤ complianceRawScore flags := by
  unfold complianceRawScore
  dsimp only
  have h1 : (0:ℚ) ≤ (((flags.filter (fun f => !f.isResolved)).length : ℚ) /
      ((flags.length : ℚ))) * 50 := by positivity
  have h2 : (0:ℚ) ≤ ((flags.filter (fun f => f.severity == "high")).length : ℚ) * 10 := by
    positivity
  split_ifs <;> linarith

theorem complianceScore_mem (flags : List ComplianceFlagRec) :
    0 ≤ (assessComplianceScore flags).score ∧ (assessComplianceScore flags).score ≤ 100 := by
  unfold assessComplianceScore
  by_cases h : flags.length = 0
  · simp [h]
  · rw [if_neg h]
    exact ⟨le_min (complianceRaw_nonneg flags) (by norm_num), min_le_right _ _⟩

theorem historicalScore_mem (sixMonthsAgo : ℤ) (patient : Option Patient)
    (e : Encounter) (history : Except Unit (List Encounter)) :
    0 ≤ (assessHistoricalPatterns sixMonthsAgo patient e history).score ∧
      (assessHistoricalPatterns sixMonthsAgo patient e history).score ≤ 100 := by
  unfold assessHistoricalPatterns
  rcases patient with _ | p
  · norm_num
  rcases history with _ | all
  · norm_num
  dsimp only
  refine ⟨le_min ?_ (by norm_num), min_le_right _ _⟩
  have hr : (0:ℚ) ≤ (((highRiskEncountersOf p e all).length : ℚ) /
      ((patientEncountersOf p e all).length : ℚ)) * 40 := by positivity
  split_ifs <;> linarith

theorem weightedRisk_mem (f : RiskFactors4)
    (hd : 0 ≤ f.documentation.score ∧ f.documentation.score ≤ 100)
    (hc : 0 ≤ f.coding.score ∧ f.coding.score ≤ 100)
    (hp : 0 ≤ f.compliance.score ∧ f.compliance.score ≤ 100)
    (hh : 0 ≤ f.historical.score ∧ f.historical.score ≤ 100) :
    0 ≤ calculateWeightedRisk f ∧ calculateWeightedRisk f ≤ 100 := by
  unfold calculateWeightedRisk
  constructor
  · apply le_jsRound
    push_cast
    nlinarith [hd.1, hc.1, hp.1, hh.1]
  · apply jsRound_le
    push_cast
    nlinarith [hd.2, hc.2, hp.2, hh.2]

/-! ## Claim theorems -/

/-- C1. For every well-formed input, each of the four risk-factor
assessors returns a RiskFactor whose score lies in [0,100], and the
aggregated overall risk score of the full claim-denial assessment also
lies in [0,100]. -/
theorem c1_scores_in_range :
    (∀ (now : ℤ) (e : Encounter) (flags : List ComplianceFlagRec),
      0 ≤ (assessDocumentationQuality now e flags).score ∧
        (assessDocumentationQuality now e flags).score ≤ 100) ∧
    (∀ e : Encounter,
      0 ≤ (assessCodingAccuracy e).score ∧ (assessCodingAccuracy e).score ≤ 100) ∧
    (∀ flags : List ComplianceFlagRec,
      0 ≤ (assessComplianceScore flags).score ∧ (assessComplianceScore flags).score ≤ 100) ∧
    (∀ (sixMo : ℤ) (patient : Option Patient) (e : Encounter)
        (history : Except Unit (List Encounter)),
      0 ≤ (assessHistoricalPatterns sixMo patient e history).score ∧
        (assessHistoricalPatterns sixMo patient e history).score ≤ 100) ∧
    (∀ (now sixMo : ℤ) (e : Encounter) (patient : Option Patient)
        (flags : List ComplianceFlagRec) (history : Except Unit (List Encounter)),
      0 ≤ (calculateClaimDenialRisk now sixMo e patient flags history).overallRiskScore ∧
        (calculateClaimDenialRisk now sixMo e patient flags history).overallRiskScore ≤ 100) := by
  refine ⟨docScore_mem, codingScore_mem, complianceScore_mem, historicalScore_mem, ?_⟩
  intro now sixMo e patient flags history
  exact weightedRisk_mem _ (docScore_mem now e flags) (codingScore_mem e)
    (complianceScore_mem flags) (historicalScore_mem sixMo patient e history)

/-- C2. The overall risk score equals the rounded fixed-weight
combination 0.35, 0.30, 0.25, 0.10 of the four factor scores. -/
theorem c2_weighted_formula (f : RiskFactors4) :
    calculateWeightedRisk f =
      jsRound ((0.35 : ℚ) * f.documentation.score + (0.30 : ℚ) * f.coding.score +
        (0.25 : ℚ) * f.compliance.score + (0.10 : ℚ) * f.historical.score) := by
  unfold calculateWeightedRisk
  congr 1
  ring

/-- C3. The risk level is a pure function of the overall score with
thresholds 80, 60, 30, and takes the stated values at 79, 80, 29, 30. -/
theorem c3_risk_level_thresholds :
    (∀ s : ℤ, categorizeRisk s =
      if s ≥ 80 then "critical" else if s ≥ 60 then "high"
      else if s ≥ 30 then "medium" else "low") ∧
    categorizeRisk 79 = "high" ∧ categorizeRisk 80 = "critical" ∧
    categorizeRisk 29 = "low" ∧ categorizeRisk 30 = "medium" :=
  ⟨fun _ => rfl, rfl, rfl, rfl, rfl⟩

/-- C7. The historical assessor is total: an unknown patient produces
the fixed low-risk factor with an explanatory issue, a storage failure
produces the fixed medium-risk factor, and every result carries a score
in [0,100], so the assessment never fails on missing history data. -/
theorem c7_historical_total :
    (∀ (sixMo : ℤ) (e : Encounter) (history : Except Unit (List Encounter)),
      assessHistoricalPatterns sixMo none e history =
        { score := 10, severity := "low",
          issues := ["Patient data unavailable for historical analysis"],
          category := "Historical Patterns" }) ∧
    (∀ (sixMo : ℤ) (p : Patient) (e : Encounter) (err : Unit),
      assessHistoricalPatterns sixMo (some p) e (Except.error err) =
        { score := 20, severity := "medium",
          issues := ["Unable to complete historical analysis"],
          category := "Historical Patterns" }) ∧
    (∀ (sixMo : ℤ) (patient : Option Patient) (e : Encounter)
        (history : Except Unit (List Encounter)),
      0 ≤ (assessHistoricalPatterns sixMo patient e history).score ∧
        (assessHistoricalPatterns sixMo patient e history).score ≤ 100) :=
  ⟨fun _ _ _ => rfl, fun _ _ _ _ => rfl, historicalScore_mem⟩

/-- C9. Only unresolved flags whose severity is exactly high add the
15-point documentation penalty: the clamped score comes from the raw
score, an unresolved high flag raises the raw score by exactly 15, and
a flag of any other severity, or a resolved one, leaves the whole
documentation factor unchanged, while the most serious rule of the rule
engine emits severity critical. -/
theorem c9_high_severity_only :
    missingPhysicalExamRule.severity = "critical" ∧
    (∀ (now : ℤ) (e : Encounter) (flags : List ComplianceFlagRec),
      (assessDocumentationQuality now e flags).score =
        min ((docQualityRawScore now e flags : ℤ) : ℚ) 100) ∧
    (∀ (now : ℤ) (e : Encounter) (flags : List ComplianceFlagRec) (f : ComplianceFlagRec),
      f.severity = "high" → f.isResolved = false →
      docQualityRawScore now e (f :: flags) = docQualityRawScore now e flags + 15) ∧
    (∀ (now : ℤ) (e : Encounter) (flags : List ComplianceFlagRec) (f : ComplianceFlagRec),
      f.severity ≠ "high" →
      assessDocumentationQuality now e (f :: flags) = assessDocumentationQuality now e flags) ∧
    (∀ (now : ℤ) (e : Encounter) (flags : List ComplianceFlagRec) (f : ComplianceFlagRec),
      f.isResolved = true →
      assessDocumentationQuality now e (f :: flags) = assessDocumentationQuality now e flags) := by
  refine ⟨rfl, fun _ _ _ => rfl, ?_, ?_, ?_⟩
  · intro now e flags f hs hr
    have hc : criticalFlagsOf (f :: flags) = f :: criticalFlagsOf flags := by
      unfold criticalFlagsOf
      simp [List.filter_cons, hs, hr]
    unfold docQualityRawScore
    rw [hc, List.length_cons]
    push_cast
    ring
  · intro now e flags f hs
    have hb : (f.severity == "high") = false := beq_eq_false_iff_ne.mpr hs
    have hc : criticalFlagsOf (f :: flags) = criticalFlagsOf flags := by
      unfold criticalFlagsOf
      simp [List.filter_cons, hb]
    unfold assessDocumentationQuality docQualityRawScore
    rw [hc]
  · intro now e flags f hr
    have hc : criticalFlagsOf (f :: flags) = criticalFlagsOf flags := by
      unfold criticalFlagsOf
      simp [List.filter_cons, hr]
    unfold assessDocumentationQuality docQualityRawScore
    rw [hc]

/-- Witness for C9 at concrete flags: an unresolved high flag adds 15,
an unresolved critical flag and a resolved high flag change nothing. -/
theorem c9_witness :
    docQualityRawScore 0 {} [{ flagType := "x", severity := "high", isResolved := false }] =
      docQualityRawScore 0 {} [] + 15 ∧
    assessDocumentationQuality 0 {} [{ flagType := "y", severity := "critical", isResolved := false }] =
      assessDocumentationQuality 0 {} [] ∧
    assessDocumentationQuality 0 {} [{ flagType := "z", severity := "high", isResolved := true }] =
      assessDocumentationQuality 0 {} [] :=
  ⟨c9_high_severity_only.2.2.1 0 {} [] _ rfl rfl,
   c9_high_severity_only.2.2.2.1 0 {} [] _ (by decide),
   c9_high_severity_only.2.2.2.2 0 {} [] _ rfl⟩

/-- C10. For a known patient with no prior encounters the historical
assessor returns score 0 with severity low and no issues, and the
high-risk subset is never larger than the prior-encounter list, so the
high-risk-rate division only happens with a positive denominator. -/
theorem c10_zero_history :
    (∀ (sixMo : ℤ) (p : Patient) (e : Encounter) (all : List Encounter),
      patientEncountersOf p e all = [] →
      assessHistoricalPatterns sixMo (some p) e (Except.ok all) =
        { score := 0, severity := "low", issues := [], category := "Historical Patterns" }) ∧
    (∀ (p : Patient) (e : Encounter) (all : List Encounter),
      0 < (highRiskEncountersOf p e all).length →
      0 < (patientEncountersOf p e all).length) := by
  constructor
  · intro sixMo p e all h
    have hhr : highRiskEncountersOf p e all = [] := by
      unfold highRiskEncountersOf
      rw [h, List.filter_nil]
    unfold assessHistoricalPatterns
    dsimp only
    rw [h, hhr]
    norm_num [severityBucket]
  · intro p e all h
    have hle := List.length_filter_le (fun en => decide (en.claimRiskScore.getD 0 > 70))
      (patientEncountersOf p e all)
    unfold highRiskEncountersOf at h
    omega

/-- Witness for C10: a patient with empty history gets the zero factor,
and a concrete nonempty high-risk history has a nonempty encounter list. -/
theorem c10_witness :
    (patientEncountersOf {} {} [] = [] ∧
      assessHistoricalPatterns 0 (some {}) {} (Except.ok []) =
        { score := 0, severity := "low", issues := [], category := "Historical Patterns" }) ∧
    (0 < (highRiskEncountersOf {} { id := "e" }
        [{ id := "h", claimRiskScore := some 80 }]).length ∧
      0 < (patientEncountersOf {} { id := "e" }
        [{ id := "h", claimRiskScore := some 80 }]).length) :=
  ⟨⟨rfl, c10_zero_history.1 0 {} {} [] rfl⟩,
   ⟨by decide, c10_zero_history.2 {} { id := "e" } [{ id := "h", claimRiskScore := some 80 }] (by decide)⟩⟩

/-- C6. A transcript mentioning pain or hurt with no pain-scale
reference always makes rule evaluation raise the missing-pain-scale
flag; a transcript containing the text pain 7/10 never gets that flag. -/
theorem c6_pain_scale_rule :
    (∀ (e : Encounter) (t : Str), hasPainComplaint t = true → hasPainScaleRef t = false →
      "missing-pain-scale" ∈ (evaluateRules e t).map RaisedFlag.type) ∧
    (∀ (e : Encounter) (t : Str), containsB (lowerStr t) ("pain 7/10".toList) = true →
      "missing-pain-scale" ∉ (evaluateRules e t).map RaisedFlag.type) := by
  constructor
  · intro e t h1 h2
    have hcheck : missingPainScaleCheck e t = true := by
      simp [missingPainScaleCheck, h1, h2]
    rcases hb : missingPhysicalExamCheck e t <;> rcases hc : insufficientHistoryCheck e t <;>
      simp [evaluateRules, complianceRules, List.filterMap_cons,
        missingPhysicalExamRule, missingPainScaleRule, insufficientHistoryRule,
        hb, hc, hcheck]
  · intro e t h
    have h10 : containsB (lowerStr t) ('/' :: '1' :: '0' :: []) = true :=
      containsB_of_containsB_of_containsB h (by decide)
    have hscale : hasPainScaleRef t = true := by
      unfold hasPainScaleRef
      simp [h10]
    have hcheck : missingPainScaleCheck e t = false := by
      simp [missingPainScaleCheck, hscale]
    rcases hb : missingPhysicalExamCheck e t <;> rcases hc : insufficientHistoryCheck e t <;>
      simp [evaluateRules, complianceRules, List.filterMap_cons,
        missingPhysicalExamRule, missingPainScaleRule, insufficientHistoryRule,
        hb, hc, hcheck]

/-- Witness for C6 at concrete transcripts: one mentioning pain with no
scale reference gets the flag, one with pain 7/10 does not. -/
theorem c6_witness :
    (hasPainComplaint ("patient reports pain today".toList) = true ∧
      hasPainScaleRef ("patient reports pain today".toList) = false ∧
      "missing-pain-scale" ∈
        (evaluateRules {} ("patient reports pain today".toList)).map RaisedFlag.type) ∧
    (containsB (lowerStr ("pain 7/10 reported".toList)) ("pain 7/10".toList) = true ∧
      "missing-pain-scale" ∉
        (evaluateRules {} ("pain 7/10 reported".toList)).map RaisedFlag.type) :=
  ⟨⟨by decide, by decide, c6_pain_scale_rule.1 {} _ (by decide) (by decide)⟩,
   ⟨by decide, c6_pain_scale_rule.2 {} _ (by decide)⟩⟩

/-- The per-flag deduction total of the enhanced-check risk score,
expressed rule by rule. -/
theorem flagDeductionSum (e : Encounter) (t : Str) :
    ((evaluateRules e t).map (fun f => severityDeduction f.severity)).sum =
      (if missingPhysicalExamCheck e t then (25:ℤ) else 0) +
      (if missingPainScaleCheck e t then (15:ℤ) else 0) +
      (if insufficientHistoryCheck e t then (10:ℤ) else 0) := by
  rcases h1 : missingPhysicalExamCheck e t <;> rcases h2 : missingPainScaleCheck e t <;>
    rcases h3 : insufficientHistoryCheck e t <;>
    simp [evaluateRules, complianceRules, List.filterMap_cons, severityDeduction,
      missingPhysicalExamRule, missingPainScaleRule, insufficientHistoryRule, h1, h2, h3]

/-- C4 counterexample. The claim says a transcript violating a strict
superset of the rules gets a risk score at least as large; with the
same empty encounter, transcript `tB` violates strictly more rules than
`tA` (the missing-pain-scale rule against none) yet its returned risk
score is strictly smaller, because the enhanced check subtracts points
per violation from a 90-point baseline. -/
theorem c4_counterexample :
    (evaluateRules {} tA).map RaisedFlag.type = [] ∧
    (evaluateRules {} tB).map RaisedFlag.type = ["missing-pain-scale"] ∧
    (enhancedComplianceCheck {} tB).riskScore < (enhancedComplianceCheck {} tA).riskScore :=
  ⟨by decide, by decide, by decide⟩

/-- C4 as amended. In the enhanced compliance check a higher risk score
means lower risk: a transcript violating a superset of the rules, in
the same transcript-length class, gets a risk score less than or equal
to the original (the route layer restores the higher-is-riskier reading
by storing 100 minus this score). -/
theorem c4_risk_direction_amended :
    ∀ (e : Encounter) (t1 t2 : Str),
      (∀ r ∈ complianceRules, r.check e t1 = true → r.check e t2 = true) →
      (t1.length < 100 ↔ t2.length < 100) →
      (enhancedComplianceCheck e t2).riskScore ≤ (enhancedComplianceCheck e t1).riskScore := by
  intro e t1 t2 hmono hlen
  have h1 : missingPhysicalExamCheck e t1 = true → missingPhysicalExamCheck e t2 = true :=
    hmono missingPhysicalExamRule (by simp [complianceRules])
  have h2 : missingPainScaleCheck e t1 = true → missingPainScaleCheck e t2 = true :=
    hmono missingPainScaleRule (by simp [complianceRules])
  have h3 : insufficientHistoryCheck e t1 = true → insufficientHistoryCheck e t2 = true :=
    hmono insufficientHistoryRule (by simp [complianceRules])
  show (calculateRiskScore (evaluateRules e t2) e t2 ≤
    calculateRiskScore (evaluateRules e t1) e t1)
  unfold calculateRiskScore
  rw [flagDeductionSum, flagDeductionSum]
  have d1 : (if missingPhysicalExamCheck e t1 then (25:ℤ) else 0) ≤
      (if missingPhysicalExamCheck e t2 then (25:ℤ) else 0) := by
    rcases hx : missingPhysicalExamCheck e t1
    · simp only [Bool.false_eq_true, if_false]
      split <;> omega
    · simp [h1 hx]
  have d2 : (if missingPainScaleCheck e t1 then (15:ℤ) else 0) ≤
      (if missingPainScaleCheck e t2 then (15:ℤ) else 0) := by
    rcases hx : missingPainScaleCheck e t1
    · simp only [Bool.false_eq_true, if_false]
      split <;> omega
    · simp [h2 hx]
  have d3 : (if insufficientHistoryCheck e t1 then (10:ℤ) else 0) ≤
      (if insufficientHistoryCheck e t2 then (10:ℤ) else 0) := by
    rcases hx : insufficientHistoryCheck e t1
    · simp only [Bool.false_eq_true, if_false]
      split <;> omega
    · simp [h3 hx]
  have dl : (if t1.length < 100 then (20:ℤ) else 0) = (if t2.length < 100 then (20:ℤ) else 0) := by
    by_cases hx : t1.length < 100
    · rw [if_pos hx, if_pos (hlen.mp hx)]
    · rw [if_neg hx, if_neg (fun hc => hx (hlen.mpr hc))]
  dsimp only
  rw [dl]
  omega

/-- Witness for the amended C4 at the concrete transcript pair: `tB`
violates a superset of the rules of `tA`, both are under 100
characters, and the risk score does not increase. -/
theorem c4_amended_witness :
    (∀ r ∈ complianceRules, r.check {} tA = true → r.check {} tB = true) ∧
    (tA.length < 100 ↔ tB.length < 100) ∧
    (enhancedComplianceCheck {} tB).riskScore ≤ (enhancedComplianceCheck {} tA).riskScore :=
  ⟨by decide, by decide, c4_risk_direction_amended {} tA tB (by decide) (by decide)⟩

unseal Rat.mul Rat.add Rat.sub Rat.inv Rat.ofScientific in
/-- C5 counterexample. In the stated scenario (no SOAP notes, empty
chief complaint, no codes, no flags) a completed recent encounter with
an unknown patient gives a documentation factor of 45, not at least 65,
and an overall score of 39, not at least 55. -/
theorem c5_counterexample :
    (calculateClaimDenialRisk 0 0 encScenario none [] (Except.ok [])).riskFactors.documentation.score = 45 ∧
    (calculateClaimDenialRisk 0 0 encScenario none [] (Except.ok [])).overallRiskScore = 39 ∧
    ¬ (65 ≤ (calculateClaimDenialRisk 0 0 encScenario none [] (Except.ok [])).riskFactors.documentation.score) ∧
    ¬ (55 ≤ (calculateClaimDenialRisk 0 0 encScenario none [] (Except.ok [])).overallRiskScore) :=
  ⟨by decide, by decide, by decide, by decide⟩

/-- C5 as amended. In the scenario with absent SOAP notes, empty chief
complaint, no codes and no prior flags, the documentation factor scores
at least 45 (25 plus 20, plus 30 more only when the encounter has aged
uncompleted), the coding factor scores exactly 75, the overall score is
at least 38, and the risk level is medium or high. -/
theorem c5_end_to_end_amended :
    ∀ (now sixMo : ℤ) (e : Encounter) (patient : Option Patient)
      (history : Except Unit (List Encounter)),
      e.soapNotes = none → e.chiefComplaint = "" →
      e.icdCodes.getD [] = [] → e.cptCodes.getD [] = [] →
      (45 ≤ (calculateClaimDenialRisk now sixMo e patient [] history).riskFactors.documentation.score ∧
       (calculateClaimDenialRisk now sixMo e patient [] history).riskFactors.coding.score = 75 ∧
       38 ≤ (calculateClaimDenialRisk now sixMo e patient [] history).overallRiskScore ∧
       ((calculateClaimDenialRisk now sixMo e patient [] history).riskLevel = "medium" ∨
        (calculateClaimDenialRisk now sixMo e patient [] history).riskLevel = "high")) := by
  intro now sixMo e patient history hs hc hi hp
  have hshort : soapShort 100 e = true := by
    unfold soapShort
    rw [hs]
  have hdocraw : docQualityRawScore now e [] = 45 + (if docDelayed now e then 30 else 0) := by
    unfold docQualityRawScore criticalFlagsOf
    simp [hshort, hc]
  have hdoclb : (45:ℚ) ≤ (assessDocumentationQuality now e []).score := by
    show (45:ℚ) ≤ min ((docQualityRawScore now e [] : ℤ) : ℚ) 100
    rw [le_min_iff]
    refine ⟨?_, by norm_num⟩
    have h45 : (45:ℤ) ≤ docQualityRawScore now e [] := by
      rw [hdocraw]
      split <;> omega
    exact_mod_cast h45
  have hdocub : (assessDocumentationQuality now e []).score ≤ 75 := by
    show min ((docQualityRawScore now e [] : ℤ) : ℚ) 100 ≤ 75
    have h75 : docQualityRawScore now e [] ≤ 75 := by
      rw [hdocraw]
      split <;> omega
    calc min ((docQualityRawScore now e [] : ℤ) : ℚ) 100
        ≤ ((docQualityRawScore now e [] : ℤ) : ℚ) := min_le_left _ _
      _ ≤ 75 := by exact_mod_cast h75
  have hcodraw : codingRawScore e = 75 := by
    unfold codingRawScore
    rw [hi, hp]
    norm_num
  have hcod : (assessCodingAccuracy e).score = 75 := by
    show min ((codingRawScore e : ℤ) : ℚ) 100 = 75
    rw [hcodraw]
    norm_num [min_def]
  have hcomp : (assessComplianceScore ([] : List ComplianceFlagRec)).score = 0 := rfl
  have hh := historicalScore_mem sixMo patient e history
  have hov38 : (38:ℤ) ≤ calculateWeightedRisk
      { documentation := assessDocumentationQuality now e []
        coding := assessCodingAccuracy e
        compliance := assessComplianceScore []
        historical := assessHistoricalPatterns sixMo patient e history } := by
    unfold calculateWeightedRisk
    apply le_jsRound
    dsimp only
    rw [hcod, hcomp]
    nlinarith [hdoclb, hh.1]
  have hov59 : calculateWeightedRisk
      { documentation := assessDocumentationQuality now e []
        coding := assessCodingAccuracy e
        compliance := assessComplianceScore []
        historical := assessHistoricalPatterns sixMo patient e history } ≤ 59 := by
    unfold calculateWeightedRisk
    apply jsRound_le
    dsimp only
    rw [hcod, hcomp]
    nlinarith [hdocub, hh.2]
  refine ⟨hdoclb, hcod, hov38, Or.inl ?_⟩
  show categorizeRisk (calculateWeightedRisk
      { documentation := assessDocumentationQuality now e []
        coding := assessCodingAccuracy e
        compliance := assessComplianceScore []
        historical := assessHistoricalPatterns sixMo patient e history }) = "medium"
  unfold categorizeRisk
  rw [if_neg (by omega), if_neg (by omega), if_pos (by omega)]

/-- Witness for the amended C5: the concrete scenario encounter
satisfies every hypothesis and the amended conclusion. -/
theorem c5_amended_witness :
    encScenario.soapNotes = none ∧ encScenario.chiefComplaint = "" ∧
    encScenario.icdCodes.getD [] = [] ∧ encScenario.cptCodes.getD [] = [] ∧
    (45 ≤ (calculateClaimDenialRisk 0 0 encScenario none [] (Except.ok [])).riskFactors.documentation.score ∧
     (calculateClaimDenialRisk 0 0 encScenario none [] (Except.ok [])).riskFactors.coding.score = 75 ∧
     38 ≤ (calculateClaimDenialRisk 0 0 encScenario none [] (Except.ok [])).overallRiskScore ∧
     ((calculateClaimDenialRisk 0 0 encScenario none [] (Except.ok [])).riskLevel = "medium" ∨
      (calculateClaimDenialRisk 0 0 encScenario none [] (Except.ok [])).riskLevel = "high")) :=
  ⟨rfl, rfl, rfl, rfl,
   c5_end_to_end_amended 0 0 encScenario none (Except.ok []) rfl rfl rfl rfl⟩

unseal Rat.mul Rat.add Rat.sub Rat.inv Rat.ofScientific in
/-- C8 counterexample. A single recent encounter with stored risk 65 is
high-risk under the claimed definition (score at least 60 within the
last 30 days, giving a 100 percent rate, far above 25 percent), but the
dashboard computes a 0 percent rate, because it counts scores above 70
over all encounters, and emits no risk-management recommendation. -/
theorem c8_counterexample :
    specHighRiskRate 0 30 [encRisk65] = 100 ∧
    dashboardHighRiskRate [encRisk65] = 0 ∧
    "Risk Management" ∉
      (generateDashboardRecommendations [encRisk65] []).map Recommendation.category :=
  ⟨by decide, by decide, by decide⟩

/-- C8 as amended. The dashboard high-risk rate is the percentage of
encounters with stored risk score above 70 among all encounters, and
whenever that rate exceeds 25 percent the system-wide recommendations
contain the risk-management recommendation. -/
theorem c8_high_risk_rate_amended :
    ∀ (encounters : List Encounter) (flagTypes : List String),
      (encounters ≠ [] →
        dashboardHighRiskRate encounters =
          ((encounters.filter (fun e => e.claimRiskScore.getD 0 > 70)).length : ℚ) * 100 /
            (encounters.length : ℚ)) ∧
      (dashboardHighRiskRate encounters > 25 →
        "Risk Management" ∈
          (generateDashboardRecommendations encounters flagTypes).map Recommendation.category) := by
  intro encounters flagTypes
  constructor
  · intro _
    unfold dashboardHighRiskRate
    ring
  · intro h
    unfold generateDashboardRecommendations generateSystemWideRecommendations
    dsimp only
    rw [if_pos h, List.map_append, List.map_append]
    exact List.mem_append_left _ (List.mem_append_right _ (by simp))

unseal Rat.mul Rat.add Rat.sub Rat.inv Rat.ofScientific in
/-- Witness for the amended C8: one encounter with stored risk 80 gives
a 100 percent rate and the risk-management recommendation appears. -/
theorem c8_amended_witness :
    ([encRisk80] : List Encounter) ≠ [] ∧
    dashboardHighRiskRate [encRisk80] =
      ((([encRisk80] : List Encounter).filter (fun e => e.claimRiskScore.getD 0 > 70)).length : ℚ) * 100 /
        (([encRisk80] : List Encounter).length : ℚ) ∧
    dashboardHighRiskRate [encRisk80] > 25 ∧
    "Risk Management" ∈
      (generateDashboardRecommendations [encRisk80] []).map Recommendation.category :=
  ⟨by decide, (c8_high_risk_rate_amended [encRisk80] []).1 (by decide),
   by decide, (c8_high_risk_rate_amended [encRisk80] []).2 (by decide)⟩

end MedCompliance
